import Mathlib

set_option maxRecDepth 8192

/-!
Verification development for the Fiddler realtime bridge
(`enhanced-bridge.py`, class `EnhancedFiddlerRealtimeBridge`).

The Python source is shallowly embedded: dictionaries become structures,
Python strings become `String` / `List Char` (Python indexes strings by
code point, so character-list slicing matches Python slicing), floats
become `ℚ`, and calls into external libraries (the regex engine, base64,
URL parsing, ISO date parsing) are passed in as explicit function
parameters ("oracles") so that theorems quantify over every possible
library behaviour.
-/

/-! ### Python primitive semantics -/

/-- Python `a or b` on strings: the empty string is falsy. -/
def pyOrS (a b : String) : String := if a = "" then b else a

/-- Python `str.strip()` (whitespace from both ends). -/
def pyStrip (l : List Char) : List Char :=
  ((l.dropWhile Char.isWhitespace).reverse.dropWhile Char.isWhitespace).reverse

/-- Python `str.lower()` restricted to per-character lowering. -/
def pyLower (l : List Char) : List Char := l.map Char.toLower

/-- Python `str.upper()` restricted to per-character raising. -/
def pyUpper (l : List Char) : List Char := l.map Char.toUpper

/-- Python `sub in s` substring test. -/
def pyContains (l sub : List Char) : Bool := decide (sub <:+: l)

/-- Python `s.startswith(pre)`. -/
def pyStartsWith (l pre : List Char) : Bool := decide (pre <+: l)

/-- A loosely typed Python value, as they arrive in the raw session dict
(ids and numeric fields may be strings, ints or bools). -/
inductive PyVal
  | vStr (s : String)
  | vInt (n : Int)
  | vBool (b : Bool)
deriving DecidableEq

/-- Python `str(v)`. -/
def pyStr : PyVal → String
  | .vStr s => s
  | .vInt n => toString n
  | .vBool b => if b then "True" else "False"

/-- Python `int(v)`; `none` models a raised `ValueError`/`TypeError`. -/
def pyValToInt : PyVal → Option Int
  | .vStr s => s.toInt?
  | .vInt n => some n
  | .vBool b => some (if b then 1 else 0)

/-- Python truthiness of a loose value. -/
def pyTruthy : PyVal → Bool
  | .vStr s => s ≠ ""
  | .vInt n => n ≠ 0
  | .vBool b => b

/-! ### The canonical (normalized) session record

Mirrors the dict built by `normalize_session` (enhanced-bridge.py 1661-1681).
The two derived ISO display strings (`received_at_iso`, `timestamp`) are
pure re-renderings of `received_at` and are omitted; `host` stores the
empty string where Python would store `None`. -/

structure Session where
  id : String
  url : String
  host : String
  method : String
  scheme : String
  statusCode : Int
  contentType : String
  contentLength : Int
  requestHeaders : List (String × String)
  responseHeaders : List (String × String)
  responseBody : String
  requestBody : String
  received_at : ℚ
  ekfiddleComments : String
  ekfiddleFlags : String
  sessionFlags : String
  fiddler_session_id : String
deriving DecidableEq

/-! ### Risk classification (`_quick_risk_assessment`, lines 1932-2012) -/

structure RiskAssessment where
  score : ℚ
  level : String
  flag : Option String
  reasons : List String
deriving DecidableEq

/-- The EKFiddle text consulted by the classifier:
`(session.get("ekfiddleComments") or session.get("sessionFlags") or
session.get("ekfiddleFlags") or "").strip()` (lines 1948-1950). -/
def ekfiddleOf (session : Session) : String :=
  (pyStrip (pyOrS (pyOrS (pyOrS session.ekfiddleComments session.sessionFlags)
    session.ekfiddleFlags) "").data).asString

/-- Keyword groups scanned at lines 1974, 1977, 1980. -/
def malwareTerms : List String := ["exploit", "malware", "trojan", "backdoor", "ransomware"]

def phishingTerms : List String := ["phishing", "credential", "socgholish", "fake update"]

def obfuscationTerms : List String := ["suspicious", "obfuscated", "encoded", "eval"]

/-- Python `any(pattern in text for pattern in terms)`. -/
def anyTermIn (l : List Char) (terms : List String) : Bool :=
  terms.any (fun t => pyContains l t.data)

/-- `_quick_risk_assessment` (lines 1932-2012). The leading severity token
is parsed from the lowered text (first 20 characters), then the keyword
groups adjust score/level, else the no-annotation branch applies. -/
def quick_risk_assessment (session : Session) : RiskAssessment :=
  let status : Int := session.statusCode
  let ekfiddle : String := ekfiddleOf session
  if ekfiddle = "" then
    { score := 0
      level := "LOW"
      flag := if status ≥ 400 then some "error_status" else none
      reasons := if status ≥ 400 then
          ["HTTP error status " ++ toString status ++ " (informational only)"]
        else [] }
  else
    let lower : List Char := pyLower ekfiddle.data
    let head20 : List Char := lower.take 20
    let base : ℚ × String :=
      if pyStartsWith lower "critical:".data || pyContains head20 "critical".data then
        (1.0, "CRITICAL")
      else if pyStartsWith lower "high:".data || pyContains head20 "high".data then
        (0.85, "HIGH")
      else if pyStartsWith lower "medium:".data || pyContains head20 "medium".data then
        (0.65, "MEDIUM")
      else if pyStartsWith lower "low:".data || pyContains head20 "low".data then
        (0.4, "MEDIUM")
      else (0.5, "MEDIUM")
    let adjusted : ℚ × String :=
      if anyTermIn lower malwareTerms then (max base.1 1.0, "CRITICAL")
      else if anyTermIn lower phishingTerms then (max base.1 0.85, "HIGH")
      else if anyTermIn lower obfuscationTerms then
        (max base.1 0.65,
         if base.2 = "MEDIUM" && pyContains head20 "high".data then "HIGH" else base.2)
      else base
    { score := adjusted.1
      level := adjusted.2
      flag := some "ekfiddle_alert"
      reasons := ["EKFiddle: " ++ ekfiddle] }

/-- `is_immediately_suspicious` (lines 2970-3000): any non-empty EKFiddle
text, else HTTP status ≥ 400. -/
def is_immediately_suspicious (session : Session) : Bool :=
  if ekfiddleOf session = "" then decide (session.statusCode ≥ 400) else true

/-! ### Bounded session store (`__init__` lines 1582-1586, `receive_session`
lines 2192-2205, `clear_sessions` lines 2943-2968)

`live_sessions = deque(maxlen=5000)`, `suspicious_sessions = deque(maxlen=1000)`;
both are mutated only under `session_lock`, so quiescent states are exactly
the states reached by a sequence of whole operations. -/

structure BridgeState where
  live_sessions : List Session
  suspicious_sessions : List Session
deriving DecidableEq

/-- `deque(maxlen=n).append(x)`: once full, the oldest element is dropped. -/
def dequeAppend (maxlen : Nat) (buf : List Session) (x : Session) : List Session :=
  if buf.length < maxlen then buf ++ [x] else buf.drop 1 ++ [x]

/-- The buffer mutation of `receive_session` (lines 2194-2203), applied to an
already-normalized session: append to `live_sessions`, and also to
`suspicious_sessions` when `is_immediately_suspicious` holds. -/
def receive_session (st : BridgeState) (sess : Session) : BridgeState :=
  { live_sessions := dequeAppend 5000 st.live_sessions sess
    suspicious_sessions :=
      if is_immediately_suspicious sess then dequeAppend 1000 st.suspicious_sessions sess
      else st.suspicious_sessions }

/-- `clear_sessions` (lines 2950-2958): always clears `live_sessions`;
clears `suspicious_sessions` only when `clear_suspicious` is set. -/
def clear_sessions (st : BridgeState) (clear_suspicious : Bool) : BridgeState :=
  { live_sessions := []
    suspicious_sessions := if clear_suspicious then [] else st.suspicious_sessions }

def initialState : BridgeState := ⟨[], []⟩

/-- One serialized mutation of the store. -/
inductive BridgeOp
  | ingest (sess : Session)
  | clear (clear_suspicious : Bool)
deriving DecidableEq

def applyOp (st : BridgeState) : BridgeOp → BridgeState
  | .ingest s => receive_session st s
  | .clear b => clear_sessions st b

def runOps (ops : List BridgeOp) : BridgeState := ops.foldl applyOp initialState

/-- Number of ingest operations in a mutation sequence. -/
def ingestCount : List BridgeOp → Nat
  | [] => 0
  | .ingest _ :: rest => ingestCount rest + 1
  | .clear _ :: rest => ingestCount rest

/-! ### By-id lookups (routes at lines 2286-2304, 2309-2328, 2333-2341)

All three routes run the same scan: `for session in reversed(self.live_sessions)`
returning the first session whose id (as a string) equals the requested one. -/

/-- Scan of `get_session_details` (lines 2291-2292). -/
def get_session_details_lookup (live : List Session) (session_id : String) : Option Session :=
  live.reverse.find? (fun s => s.id == session_id)

/-- Scan of `get_session_headers` (lines 2314-2315). -/
def get_session_headers_lookup (live : List Session) (session_id : String) : Option Session :=
  live.reverse.find? (fun s => s.id == session_id)

/-- Scan of `get_session_body` (lines 2338-2341). -/
def get_session_body_lookup (live : List Session) (session_id : String) : Option Session :=
  live.reverse.find? (fun s => s.id == session_id)

/-! ### Normalization (`normalize_session` lines 1594-1715,
`_coerce_timestamp` lines 1717-1745)

External library calls are modelled as oracle parameters. -/

/-- Library behaviour consulted by `normalize_session` and the search route:
`base64.b64decode` + utf-8 decode (`none` models a raised exception),
`urlparse(url).hostname` (`none` models Python `None`), `urlparse(url).scheme`,
`datetime.fromisoformat(...).timestamp()` (`none` models `ValueError`), and
`float(...)` (`none` models `ValueError`). -/
structure PyOracles where
  b64decode : String → Option String
  urlHostname : String → Option String
  urlScheme : String → String
  isoParse : String → Option ℚ
  floatParse : String → Option ℚ

/-- A timestamp value as it arrives in the raw payload. -/
inductive TsVal
  | tNum (q : ℚ)
  | tStr (s : String)
deriving DecidableEq

/-- Python truthiness of a timestamp value. -/
def tsTruthy : TsVal → Bool
  | .tNum q => q ≠ 0
  | .tStr s => s ≠ ""

/-- Python `a or b` over possibly-missing loose values (`None` and falsy
values select the right operand). -/
def pyOrTs (a b : Option TsVal) : Option TsVal :=
  match a with
  | some v => if tsTruthy v then some v else b
  | none => b

/-- The raw session dict handed to `normalize_session`. `none` covers both
an absent key and a key present with value `None` (the code treats these
alike for every field below). -/
structure RawSession where
  id : Option PyVal
  session_id : Option PyVal
  fiddler_session_id : Option PyVal
  url : Option String
  host : Option String
  method : Option String
  RequestMethod : Option String
  statusCode : Option PyVal
  status : Option PyVal
  contentType : Option String
  mime : Option String
  contentLength : Option PyVal
  body_length : Option PyVal
  responseBody : Option String
  responseBodyBase64 : Option String
  response_body_base64 : Option String
  received_at : Option TsVal
  timestamp : Option TsVal
  StartedDateTime : Option TsVal
  scheme : Option String
  protocol : Option String
  requestHeaders : Option (List (String × String))
  request_headers : Option (List (String × String))
  responseHeaders : Option (List (String × String))
  response_headers : Option (List (String × String))
  requestBody : Option String
  request_body : Option String
  ekfiddleComments : Option String
  ekfiddleFlags : Option String
  sessionFlags : Option String
deriving DecidableEq

/-- `d.get(k)` as a string where missing/`None` reads as `""`. -/
def getStr (o : Option String) : String := o.getD ""

/-- `d.get(a) or d.get(b) or {}` for header fields. -/
def getHeaders (a b : Option (List (String × String))) : List (String × String) :=
  match a with
  | some h => if h = [] then b.getD [] else h
  | none => b.getD []

/-- The id-alias resolution shared by both paths of `normalize_session`
(lines 1602-1608 and 1685-1689): `id`, then `session_id`, then
`fiddler_session_id`, first key present with a non-`None` value wins,
converted with `str(...)`. -/
def rawSid (d : RawSession) : Option String :=
  match d.id with
  | some v => some (pyStr v)
  | none =>
    match d.session_id with
    | some v => some (pyStr v)
    | none =>
      match d.fiddler_session_id with
      | some v => some (pyStr v)
      | none => none

/-- `str.replace("Z", "+00:00")` as used at line 1735. -/
def pyReplaceZ (s : String) : String :=
  (s.data.foldr (fun c acc => (if c = 'Z' then "+00:00".data else [c]) ++ acc) []).asString

/-- `_coerce_timestamp` (lines 1717-1745): numbers above `1e12` are taken as
milliseconds; strings are stripped, then ISO-parsed (after replacing a
trailing-style `"Z"`), then parsed as a float; anything else falls back to
`default_epoch`. -/
def coerce_timestamp (g : PyOracles) (value : Option TsVal) (default_epoch : ℚ) : ℚ :=
  match value with
  | none => default_epoch
  | some (.tNum q) => if q > 1000000000000 then q / 1000 else q
  | some (.tStr s0) =>
    let s := (pyStrip s0.data).asString
    if s = "" then default_epoch
    else
      match g.isoParse (pyReplaceZ s) with
      | some q => q
      | none =>
        match g.floatParse s with
        | some q => q
        | none => default_epoch

/-- Python `int(now_epoch*1000)` for a non-negative epoch (truncation
towards zero equals floor there). -/
def epochMillis (now : ℚ) : Int := Int.floor (now * 1000)

/-- The non-raising path of `normalize_session` (lines 1596-1681). -/
def normalize_session_ok (g : PyOracles) (now : ℚ) (d : RawSession) : Session :=
  let sid : String :=
    match rawSid d with
    | some s => s
    | none => "missing-id-" ++ toString (epochMillis now)
  let url : String := getStr d.url
  let host : String :=
    if getStr d.host ≠ "" then getStr d.host
    else if url ≠ "" then (g.urlHostname url).getD "" else ""
  let method : String := pyOrS (pyOrS (getStr d.method) (getStr d.RequestMethod)) ""
  let code0 : PyVal := d.statusCode.getD (d.status.getD (.vInt 0))
  let code1 : PyVal := if pyTruthy code0 then code0 else .vInt 0
  let code : Int := (pyValToInt code1).getD 0
  let ctype : String := pyOrS (pyOrS (getStr d.contentType) (getStr d.mime)) ""
  let clen0 : PyVal := d.contentLength.getD (d.body_length.getD (.vInt 0))
  let clen1 : PyVal := if pyTruthy clen0 then clen0 else .vInt 0
  let clen : Int := (pyValToInt clen1).getD 0
  let body0 : String := pyOrS (getStr d.responseBody) ""
  let body_text : String :=
    if body0 = "" then
      let b64 := pyOrS (getStr d.responseBodyBase64) (getStr d.response_body_base64)
      if b64 ≠ "" then (g.b64decode b64).getD "" else body0
    else body0
  let timestamp_raw : Option TsVal := pyOrTs (pyOrTs d.received_at d.timestamp) d.StartedDateTime
  let received_at : ℚ := coerce_timestamp g timestamp_raw now
  let scheme0 : String := pyOrS (getStr d.scheme) (getStr d.protocol)
  let scheme1 : String := if scheme0 = "" && url ≠ "" then g.urlScheme url else scheme0
  let scheme : String := (pyLower (pyOrS scheme1 "http").data).asString
  { id := sid
    url := url
    host := host
    method := method
    scheme := scheme
    statusCode := code
    contentType := ctype
    contentLength := clen
    requestHeaders := getHeaders d.requestHeaders d.request_headers
    responseHeaders := getHeaders d.responseHeaders d.response_headers
    responseBody := body_text
    requestBody := pyOrS (pyOrS (getStr d.requestBody) (getStr d.request_body)) ""
    received_at := received_at
    ekfiddleComments := pyOrS (getStr d.ekfiddleComments) ""
    ekfiddleFlags := pyOrS (getStr d.ekfiddleFlags) ""
    sessionFlags := pyOrS (getStr d.sessionFlags) ""
    fiddler_session_id :=
      match d.fiddler_session_id with
      | some v => if pyTruthy v then pyStr v else sid
      | none => sid }

/-- The exception fallback of `normalize_session` (lines 1682-1715): a
minimal record carrying the error text, with the id recovered from the raw
aliases when possible. -/
def normalize_session_fallback (now : ℚ) (e : String) (d : RawSession) : Session :=
  let error_sid : String :=
    match rawSid d with
    | some s => s
    | none => "error-" ++ toString (epochMillis now)
  { id := error_sid
    url := getStr d.url
    host := getStr d.host
    method := d.method.getD "GET"
    scheme := ""
    statusCode := 0
    contentType := ""
    contentLength := 0
    requestHeaders := []
    responseHeaders := []
    responseBody := ""
    requestBody := ""
    received_at := now
    ekfiddleComments := "normalization_error: " ++ e
    ekfiddleFlags := ""
    sessionFlags := ""
    fiddler_session_id := error_sid }

/-- `normalize_session` (lines 1594-1715). The whole decode body sits in a
`try`; `exc` records whether some statement of that body raised (e.g.
`datetime.utcfromtimestamp` overflowing on an infinite float timestamp),
carrying `str(e)`. The inner `try`s (base64 decode, `int(...)` coercion)
are modelled directly inside the ok-path. The function is total: it never
raises. -/
def normalize_session (g : PyOracles) (now : ℚ) (exc : Option String) (d : RawSession) : Session :=
  match exc with
  | none => normalize_session_ok g now d
  | some e => normalize_session_fallback now e d

/-! ### Budgeted content extraction (`_extract_intelligent_content`,
lines 1747-1930)

The `re` engine is abstracted by `matchesFor`: for the i-th entry of the
pattern catalogue, `matchesFor i` is the list of `(start, end)` spans that
`re.finditer` yields over the middle section, in source order. Theorems
hold for every such span list; the only fact used about the real engine is
that spans lie inside the searched text. -/

/-- The names of the fixed pattern catalogue (lines 1816-1862), in order.
The regex source texts live with the engine oracle. -/
def security_pattern_names : List String :=
  ["eval()", "Function()", "new Function()", "setTimeout with string",
   "setInterval with string",
   "document.write()", "innerHTML assignment", "outerHTML assignment",
   "insertAdjacentHTML()",
   "window.location redirect", "document.location redirect",
   "location.href redirect", "location.replace()",
   "createElement script", "createElement iframe", "appendChild()",
   "hex escape sequences", "unicode escapes", "fromCharCode()",
   "charCodeAt()", "atob() base64 decode", "btoa() base64 encode",
   "XMLHttpRequest", "fetch()", "sendBeacon()",
   "localStorage access", "sessionStorage access", "cookie access",
   "debugger statement", "console.clear()"]

/-- One collected snippet (the dict built at lines 1896-1900). -/
structure PatternSnippet where
  pattern : String
  code : List Char
  position : Nat
deriving DecidableEq

/-- Python slice-index adjustment for `str.find`/`str.rfind` bounds:
negative indices count from the end, then clamp to `[0, len]`. -/
def pyAdjustIdx (len : Nat) (i : Int) : Nat :=
  if i < 0 then ((len : Int) + i).toNat else min i.toNat len

/-- Python `s.rfind(c, lo, hi)` for a single character: highest index in
`[lo, hi)` holding `c`, else `-1`. -/
def pyRfindChar (s : List Char) (c : Char) (lo hi : Int) : Int :=
  let l := pyAdjustIdx s.length lo
  let h := pyAdjustIdx s.length hi
  match ((List.range s.length).filter
      (fun k => decide (l ≤ k) && decide (k < h) && decide (s.getD k ' ' = c))).getLast? with
  | some k => (k : Int)
  | none => -1

/-- Python `s.find(c, lo, hi)` for a single character. -/
def pyFindChar (s : List Char) (c : Char) (lo hi : Int) : Int :=
  let l := pyAdjustIdx s.length lo
  let h := pyAdjustIdx s.length hi
  match ((List.range s.length).filter
      (fun k => decide (l ≤ k) && decide (k < h) && decide (s.getD k ' ' = c))).head? with
  | some k => (k : Int)
  | none => -1

/-- Characters of context carried around each match (line 1865). -/
def context_chars : Nat := 150

/-- The state threaded through the collection loops:
`(suspicious_snippets, bytes_used, patterns_found)`. -/
abbrev SnipState := List PatternSnippet × Nat × List String

/-- The body of the inner `for match in re.finditer(...)` loop
(lines 1876-1905): cut a context window, snap it to line boundaries,
strip it, and keep it when it is non-empty, shorter than 500 characters
and not a duplicate, accounting `len(snippet) + 50` against the budget. -/
def processMatch (middle : List Char) (middle_start : Nat) (pname : String)
    (m : Nat × Nat) (st : SnipState) : SnipState :=
  let start : Nat := m.1 - context_chars
  let stop : Nat := min middle.length (m.2 + context_chars)
  let line_start_i : Int := pyRfindChar middle '\n' ((start : Int) - 50) (m.1 : Int)
  let line_start : Nat := if line_start_i = -1 then start else line_start_i.toNat + 1
  let line_end_i : Int := pyFindChar middle '\n' (m.2 : Int) ((stop : Int) + 50)
  let line_end : Nat := if line_end_i = -1 then stop else line_end_i.toNat
  let snippet : List Char := pyStrip ((middle.take line_end).drop line_start)
  if snippet ≠ [] ∧ snippet.length < 500 then
    if snippet ∉ st.1.map PatternSnippet.code then
      (st.1 ++ [⟨pname, snippet, middle_start + m.1⟩],
       st.2.1 + snippet.length + 50,
       if pname ∈ st.2.2 then st.2.2 else st.2.2 ++ [pname])
    else st
  else st

/-- The inner match loop with its budget `break` (lines 1872-1874). -/
def processMatches (middle : List Char) (middle_start : Nat) (budget : Int)
    (pname : String) : List (Nat × Nat) → SnipState → SnipState
  | [], st => st
  | m :: rest, st =>
    if (st.2.1 : Int) ≥ budget then st
    else processMatches middle middle_start budget pname rest
      (processMatch middle middle_start pname m st)

/-- The outer pattern loop with its budget `break` (lines 1867-1869),
over the enumerated catalogue. -/
def processPatterns (middle : List Char) (middle_start : Nat) (budget : Int)
    (matchesFor : Nat → List (Nat × Nat)) :
    List (Nat × String) → SnipState → SnipState
  | [], st => st
  | (idx, pname) :: rest, st =>
    if (st.2.1 : Int) ≥ budget then st
    else processPatterns middle middle_start budget matchesFor rest
      (processMatches middle middle_start budget pname (matchesFor idx) st)

/-- Python `sep.join(parts)`. -/
def pyJoin (sep : List Char) : List (List Char) → List Char
  | [] => []
  | [a] => a
  | a :: rest => a ++ sep ++ pyJoin sep rest

/-- One formatted entry of lines 1915-1917:
`[{i}] {pattern} (position ~{position}):` newline `{code}`. -/
def formatSnippetEntry (i : Nat) (s : PatternSnippet) : List Char :=
  "[".data ++ (Nat.repr i).data ++ "] ".data ++ s.pattern.data
    ++ " (position ~".data ++ (Nat.repr s.position).data ++ "):\n".data ++ s.code

/-- Lines 1912-1918: at most the first 20 snippets, enumerated from 1,
joined by a blank line. -/
def formatSnippets (snips : List PatternSnippet) : List Char :=
  pyJoin "\n\n".data ((snips.take 20).enum.map (fun p => formatSnippetEntry (p.1 + 1) p.2))

/-- The result dict of `_extract_intelligent_content`; the metadata size
fields are recomputed lengths and are represented by the lists themselves. -/
structure ExtractResult where
  head : List Char
  tail : List Char
  suspicious_patterns : List Char
  original_size : Nat
  extraction_method : String
  patterns_found : List String
deriving DecidableEq

/-- `_extract_intelligent_content` (lines 1747-1930) with the default
budget argument `max_total` explicit. -/
def extract_intelligent_content (body_text : List Char) (max_total : Nat)
    (matchesFor : Nat → List (Nat × Nat)) : ExtractResult :=
  if body_text = [] then ⟨[], [], [], 0, "intelligent", []⟩
  else
    let body_size := body_text.length
    if body_size ≤ max_total then ⟨body_text, [], [], body_size, "full_content", []⟩
    else
      let head_size := min 8000 body_size
      let tail_size := min 4000 (body_size - head_size)
      let pattern_budget : Int := (max_total : Int) - (head_size : Int) - (tail_size : Int)
      let hd := body_text.take head_size
      let tl :=
        if body_size > head_size + tail_size then body_text.drop (body_size - tail_size)
        else if body_size > head_size then body_text.drop head_size
        else []
      let middle_start := head_size
      let middle_end := if body_size > head_size + tail_size then body_size - tail_size
        else body_size
      let middle := (body_text.take middle_end).drop middle_start
      if middle ≠ [] ∧ pattern_budget > 0 then
        let collected := processPatterns middle middle_start pattern_budget matchesFor
          security_pattern_names.enum ([], 0, [])
        ⟨hd, tl, formatSnippets collected.1, body_size, "intelligent",
         if collected.1 ≠ [] then collected.2.2 else []⟩
      else ⟨hd, tl, [], body_size, "intelligent", []⟩

/-! ### Search (`search_sessions` route, lines 2438-2527)

`re.compile(pat, re.I)` happens before the filter loop and outside any
per-filter `try`; a `re.error` propagates to the route-level handler at
line 2525, which answers `{"success": False, "total_matched": 0,
"sessions": [], "error": str(e)}` with HTTP 200. The compiled regex is
modelled as a matcher `String → Bool` (`rx.search`), and compilation as a
`Except`-valued oracle. -/

/-- The parsed query parameters of the search route (lines 2443-2456),
after the transport-level defaulting. -/
structure SearchQuery where
  host_pat : String
  url_pat : String
  method : Option String
  ctype_want : Option String
  status_min : Int
  status_max : Int
  min_size : Int
  max_size : Int
  limit : Nat
  cutoff_ts : Option ℚ
deriving DecidableEq

/-- The MIME-group table of `ctype_matches` (lines 2465-2469). -/
def ctype_groups : List (String × List String) :=
  [("javascript", ["application/javascript", "text/javascript", "application/x-javascript"]),
   ("html", ["text/html"]), ("json", ["application/json", "text/json"]),
   ("css", ["text/css"]), ("plain", ["text/plain"])]

/-- `ctype_matches` (lines 2462-2470). -/
def ctype_matches (ct : String) (want : Option String) : Bool :=
  match want with
  | none => true
  | some w =>
    let base : String := (pyLower (pyStrip (ct.data.takeWhile (· ≠ ';'))).asString.data).asString
    let group : List String := ((ctype_groups.lookup w).getD [])
    decide (base ∈ group) || decide (base = (pyLower w.data).asString)

/-- The per-session filter chain of the loop body (lines 2476-2493); a
`false` models `continue`. -/
def search_filter (g : PyOracles) (q : SearchQuery)
    (hostM urlM : Option (String → Bool)) (s : Session) : Bool :=
  let url : String := pyOrS s.url ""
  let host0 : String := pyOrS s.host ""
  let host : String :=
    if host0 = "" && url ≠ "" then (g.urlHostname url).getD "" else host0
  let meth : String := (pyUpper (pyOrS s.method "").data).asString
  let code : Int := s.statusCode
  let ctype : String := pyOrS s.contentType ""
  let size : Int := s.contentLength
  (match q.cutoff_ts with
   | some cutoff => decide (s.received_at ≥ cutoff)
   | none => true) &&
  (match hostM with | some rx => rx host | none => true) &&
  (match urlM with | some rx => rx url | none => true) &&
  (match q.method with | some m => decide (meth = m) | none => true) &&
  decide (q.status_min ≤ code ∧ code ≤ q.status_max) &&
  decide (q.min_size ≤ size ∧ size ≤ q.max_size) &&
  ctype_matches ctype q.ctype_want

/-- The filter loop (lines 2472-2504) over `reversed(live_sessions)`:
counts a match, appends it, and `break`s once `limit` results are
collected (so `total_matched` also stops growing there). -/
def search_loop (g : PyOracles) (q : SearchQuery)
    (hostM urlM : Option (String → Bool)) :
    List Session → Nat × List Session → Nat × List Session
  | [], st => st
  | s :: rest, (total, out) =>
    if search_filter g q hostM urlM s then
      let out' := out ++ [s]
      if out'.length ≥ q.limit then (total + 1, out')
      else search_loop g q hostM urlM rest (total + 1, out')
    else search_loop g q hostM urlM rest (total, out)

/-- The JSON answer of the route; `sessions` keeps the matched records
themselves (the route renders each through `_format_session_overview`,
a per-record projection that adds no and removes no matches). -/
structure SearchOutcome where
  success : Bool
  total_matched : Nat
  sessions : List Session
  err : Option String
deriving DecidableEq

/-- `host_rx = re.compile(host_pat, re.I) if host_pat else None`
(lines 2459-2460); a compile failure is a raised `re.error`. -/
def compileRx (compile : String → Except String (String → Bool)) (pat : String) :
    Except String (Option (String → Bool)) :=
  if pat = "" then .ok none else (compile pat).map some

/-- `search_sessions` (lines 2438-2527): compile both patterns, run the
filter loop; any raised error is answered by the route-level handler with
an empty result set and the error text (line 2527). -/
def search_sessions (g : PyOracles) (compile : String → Except String (String → Bool))
    (live : List Session) (q : SearchQuery) : SearchOutcome :=
  match compileRx compile q.host_pat with
  | .error e => ⟨false, 0, [], some e⟩
  | .ok hostM =>
    match compileRx compile q.url_pat with
    | .error e => ⟨false, 0, [], some e⟩
    | .ok urlM =>
      let r := search_loop g q hostM urlM live.reverse (0, [])
      ⟨true, r.1, r.2, none⟩

/-! ### Concrete instances used by counterexamples and witnesses -/

/-- A canonical record with the given EKFiddle comment and status. -/
def sampleSession (ek : String) (status : Int) : Session :=
  ⟨"S1", "http://host.example/a.js", "host.example", "GET", "http", status,
   "text/html", 10, [], [], "", "", 0, ek, "", "", "S1"⟩

/-- Library oracles that find nothing and parse nothing. -/
def trivialOracles : PyOracles :=
  ⟨fun _ => none, fun _ => none, fun _ => "", fun _ => none, fun _ => none⟩

/-- A raw session dict with every key absent. -/
def emptyRaw : RawSession :=
  ⟨none, none, none, none, none, none, none, none, none, none, none, none, none,
   none, none, none, none, none, none, none, none, none, none, none, none, none,
   none, none, none, none⟩

/-- A raw dict carrying an integer id (and a decoy under a lower-priority alias). -/
def rawWithId : RawSession := { emptyRaw with id := some (.vInt 42), session_id := some (.vStr "decoy") }

/-- A raw dict whose `id` key holds the empty string (present and not `None`). -/
def rawEmptyId : RawSession := { emptyRaw with id := some (.vStr "") }

/-- Mutation sequence: ingest one flagged record, then clear the live buffer
without requesting a flagged clear. -/
def c6ops : List BridgeOp :=
  [.ingest (sampleSession "Critical: test" 200), .clear false]

/-- Mutation sequence in which every clear also clears the flagged buffer. -/
def c6wOps : List BridgeOp :=
  [.ingest (sampleSession "Critical: test" 200), .clear true, .ingest (sampleSession "" 500)]

/-- The search route's defaulted query: no filters at all. -/
def defaultQuery : SearchQuery := ⟨"", "", none, none, 0, 999, 0, 1000000000, 50, none⟩

/-- The same query with a malformed host regex. -/
def badPatQuery : SearchQuery := { defaultQuery with host_pat := "(" }

/-- The same query with an empty host pattern and a malformed URL regex. -/
def badUrlQuery : SearchQuery := { defaultQuery with url_pat := "(" }

/-- A regex engine whose compilation always raises `re.error`. -/
def failCompile : String → Except String (String → Bool) :=
  fun _ => .error "missing ), unterminated subpattern at position 0"

/-- Bound carried by every collected snippet: stripped code below 500
characters, a catalogue pattern name, and a position inside the body. -/
def SnipBounded (posBound : Nat) (snips : List PatternSnippet) : Prop :=
  ∀ e ∈ snips, e.code.length ≤ 499 ∧ e.pattern.length ≤ 26 ∧ e.position ≤ posBound

/-! ## Theorems -/

/-- Claim C9: clearing `allRecords` without requesting a flagged clear
leaves the flagged buffer untouched (and empties the live buffer); the
flagged buffer is emptied exactly when the clear requests it. -/
theorem C9_clear_isolation (st : BridgeState) :
    (clear_sessions st false).suspicious_sessions = st.suspicious_sessions ∧
    (clear_sessions st false).live_sessions = [] ∧
    (clear_sessions st true).suspicious_sessions = [] :=
  ⟨rfl, rfl, rfl⟩

/-- Claim C3 counterexample: a record with no threat annotation and HTTP
status 500 is classified with flag `"error_status"`, not with an empty
flag — the status does raise the flag, refuting the claim as stated. -/
theorem C3_counterexample :
    ekfiddleOf (sampleSession "" 500) = "" ∧
    quick_risk_assessment (sampleSession "" 500) =
      ⟨0, "LOW", some "error_status", ["HTTP error status 500 (informational only)"]⟩ :=
  ⟨rfl, rfl⟩

/-- Claim C3 (amended): with an empty (or absent) threat annotation the
score is 0.0 and the level LOW regardless of status; an HTTP status ≥ 400
appends only the informational reason and sets the informational
`"error_status"` flag — it never raises the score or the level. -/
theorem C3_amended (s : Session) (h : ekfiddleOf s = "") :
    (quick_risk_assessment s).score = 0 ∧
    (quick_risk_assessment s).level = "LOW" ∧
    (quick_risk_assessment s).flag =
      (if s.statusCode ≥ 400 then some "error_status" else none) ∧
    (quick_risk_assessment s).reasons =
      (if s.statusCode ≥ 400 then
        ["HTTP error status " ++ toString s.statusCode ++ " (informational only)"]
       else []) := by
  simp [quick_risk_assessment, h]

/-- Witness for C3 (amended) at an annotation-free record with status 503. -/
theorem C3_amended_witness :
    (quick_risk_assessment (sampleSession "" 503)).score = 0 ∧
    (quick_risk_assessment (sampleSession "" 503)).level = "LOW" ∧
    (quick_risk_assessment (sampleSession "" 503)).flag =
      (if (sampleSession "" 503).statusCode ≥ 400 then some "error_status" else none) ∧
    (quick_risk_assessment (sampleSession "" 503)).reasons =
      (if (sampleSession "" 503).statusCode ≥ 400 then
        ["HTTP error status " ++ toString (sampleSession "" 503).statusCode ++
          " (informational only)"]
       else []) :=
  C3_amended (sampleSession "" 503) rfl

/-- Claim C4 counterexample: an annotation whose leading token is
`critical` but which also contains a phishing-group keyword is classified
with level `"HIGH"` (score 1.0): the phishing `elif` assigns the level
unconditionally and so lowers an earlier CRITICAL, refuting the claim. -/
theorem C4_counterexample :
    quick_risk_assessment (sampleSession "Critical: phishing page" 200) =
      ⟨max 1.0 0.85, "HIGH", some "ekfiddle_alert",
       ["EKFiddle: Critical: phishing page"]⟩ ∧
    max (1.0 : ℚ) 0.85 = 1.0 :=
  ⟨rfl, by norm_num⟩

/-- Claim C4 (amended): with a leading `critical` severity token the final
score is always 1.0, and the keyword scan keeps the level CRITICAL except
in one case: when a phishing/credential-group keyword matches and no
malware-group keyword does, the level is overwritten to HIGH. -/
theorem C4_amended (s : Session) (hek : ekfiddleOf s ≠ "")
    (hcrit : (pyStartsWith (pyLower (ekfiddleOf s).data) "critical:".data
        || pyContains ((pyLower (ekfiddleOf s).data).take 20) "critical".data) = true) :
    (quick_risk_assessment s).score = 1 ∧
    (quick_risk_assessment s).level =
      (if anyTermIn (pyLower (ekfiddleOf s).data) malwareTerms then "CRITICAL"
       else if anyTermIn (pyLower (ekfiddleOf s).data) phishingTerms then "HIGH"
       else "CRITICAL") := by
  have h10 : max (1.0 : ℚ) 1.0 = 1 := by norm_num
  have h085 : max (1.0 : ℚ) 0.85 = 1 := by norm_num
  have h065 : max (1.0 : ℚ) 0.65 = 1 := by norm_num
  by_cases hm : anyTermIn (pyLower (ekfiddleOf s).data) malwareTerms
  · simp [quick_risk_assessment, hek, hcrit, hm, h10]
    norm_num
  · by_cases hp : anyTermIn (pyLower (ekfiddleOf s).data) phishingTerms
    · simp [quick_risk_assessment, hek, hcrit, hm, hp, h085]
    · by_cases ho : anyTermIn (pyLower (ekfiddleOf s).data) obfuscationTerms
      · simp [quick_risk_assessment, hek, hcrit, hm, hp, ho, h065]
      · simp [quick_risk_assessment, hek, hcrit, hm, hp, ho]
        norm_num

/-- Witness for C4 (amended) at a critical-token annotation with a
malware-group keyword. -/
theorem C4_amended_witness :
    (quick_risk_assessment (sampleSession "Critical: malware beacon" 200)).score = 1 ∧
    (quick_risk_assessment (sampleSession "Critical: malware beacon" 200)).level =
      (if anyTermIn (pyLower (ekfiddleOf (sampleSession "Critical: malware beacon" 200)).data)
          malwareTerms then "CRITICAL"
       else if anyTermIn (pyLower (ekfiddleOf (sampleSession "Critical: malware beacon" 200)).data)
          phishingTerms then "HIGH"
       else "CRITICAL") :=
  C4_amended (sampleSession "Critical: malware beacon" 200) (by decide) (by decide)

/-- Scanning a list from the back for the first hit equals taking the last
hit of a front-to-back filter. -/
theorem reverse_find_eq_filter_getLast {α : Type} (l : List α) (p : α → Bool) :
    l.reverse.find? p = (l.filter p).getLast? := by
  induction l using List.reverseRecOn with
  | nil => rfl
  | append_singleton xs x ih =>
    rw [List.reverse_append, List.reverse_singleton, List.singleton_append,
      List.filter_append, List.filter_singleton]
    by_cases hx : p x = true
    · rw [List.find?_cons_of_pos _ hx, hx, cond_true, List.getLast?_concat]
    · rw [List.find?_cons_of_neg _ hx, Bool.not_eq_true] at *
      rw [hx, cond_false, List.append_nil, ih]

/-- Claim C10: all three by-id scans (session detail, headers, body) walk
the buffer newest-to-oldest and return the first match, i.e. the most
recently ingested record carrying the requested id. -/
theorem C10_latest_match_wins (live : List Session) (session_id : String) :
    get_session_details_lookup live session_id
      = (live.filter (fun s => s.id == session_id)).getLast? ∧
    get_session_headers_lookup live session_id
      = (live.filter (fun s => s.id == session_id)).getLast? ∧
    get_session_body_lookup live session_id
      = (live.filter (fun s => s.id == session_id)).getLast? :=
  ⟨reverse_find_eq_filter_getLast live _, reverse_find_eq_filter_getLast live _,
   reverse_find_eq_filter_getLast live _⟩

/-- Claim C7: whenever the raw payload carries an id under a recognized
alias (`id`, then `session_id`, then `fiddler_session_id`, first present
non-`None` value winning), the normalized record's id is exactly that
value converted by `str(...)` — on the ordinary path and on the exception
fallback path alike; no synthetic id is fabricated. -/
theorem C7_id_preservation (g : PyOracles) (now : ℚ) (exc : Option String)
    (d : RawSession) (s : String) (h : rawSid d = some s) :
    (normalize_session g now exc d).id = s := by
  cases exc with
  | none => simp [normalize_session, normalize_session_ok, h]
  | some e => simp [normalize_session, normalize_session_fallback, h]

/-- Witness for C7: an integer id `42` survives as the string `"42"`
(the lower-priority `session_id` alias is ignored), both without and with
a raised exception. -/
theorem C7_id_preservation_witness :
    (normalize_session trivialOracles 0 none rawWithId).id = "42" :=
  C7_id_preservation trivialOracles 0 none rawWithId "42" rfl

/-- Claim C8 counterexample: the raw payload `{"id": ""}` carries its id
under a recognized alias, so normalization adopts it — producing a
canonical record whose id is the EMPTY string, refuting the claimed
invariant that every returned record has a non-empty id. -/
theorem C8_counterexample :
    rawSid rawEmptyId = some "" ∧
    (normalize_session trivialOracles 0 none rawEmptyId).id = "" ∧
    (normalize_session trivialOracles 0 (some "boom") rawEmptyId).id = "" :=
  ⟨rfl, rfl, rfl⟩

/-- Claim C8 (amended): normalization is total (the embedding is a total
function mirroring the `try`/`except` split) and always yields a record
with a well-defined (rational, hence finite) `received_at`; its id is the
string form of the first recognized alias when one is present — hence
empty only when the payload itself supplied an empty-string id — and a
non-empty synthetic timestamp-derived id otherwise; on an internal
exception the fallback record carries the `normalization_error` diagnostic
marker and the alias-recovered id when possible. -/
theorem C8_amended (g : PyOracles) (now : ℚ) (e : String) (d : RawSession) :
    ((normalize_session g now none d).id
      = (rawSid d).getD ("missing-id-" ++ toString (epochMillis now))) ∧
    ((normalize_session g now (some e) d).id
      = (rawSid d).getD ("error-" ++ toString (epochMillis now))) ∧
    (rawSid d = none →
      (normalize_session g now none d).id ≠ "" ∧
      (normalize_session g now (some e) d).id ≠ "") ∧
    ((normalize_session g now (some e) d).ekfiddleComments
      = "normalization_error: " ++ e) ∧
    ((normalize_session g now (some e) d).statusCode = 0) := by
  refine ⟨?_, ?_, ?_, rfl, rfl⟩
  · cases h : rawSid d with
    | none => simp [normalize_session, normalize_session_ok, h]
    | some s => simp [normalize_session, normalize_session_ok, h]
  · cases h : rawSid d with
    | none => simp [normalize_session, normalize_session_fallback, h]
    | some s => simp [normalize_session, normalize_session_fallback, h]
  · intro h
    constructor
    · simp only [normalize_session, normalize_session_ok, h]
      intro hcontra
      have := congrArg String.data hcontra
      simp [String.data_append] at this
    · simp only [normalize_session, normalize_session_fallback, h]
      intro hcontra
      have := congrArg String.data hcontra
      simp [String.data_append] at this

/-- Witness for C8 (amended) at an alias-free payload. -/
theorem C8_amended_witness :
    ((normalize_session trivialOracles 0 none emptyRaw).id
      = (rawSid emptyRaw).getD ("missing-id-" ++ toString (epochMillis 0))) ∧
    ((normalize_session trivialOracles 0 (some "boom") emptyRaw).id
      = (rawSid emptyRaw).getD ("error-" ++ toString (epochMillis 0))) ∧
    (rawSid emptyRaw = none →
      (normalize_session trivialOracles 0 none emptyRaw).id ≠ "" ∧
      (normalize_session trivialOracles 0 (some "boom") emptyRaw).id ≠ "") ∧
    ((normalize_session trivialOracles 0 (some "boom") emptyRaw).ekfiddleComments
      = "normalization_error: " ++ "boom") ∧
    ((normalize_session trivialOracles 0 (some "boom") emptyRaw).statusCode = 0) :=
  C8_amended trivialOracles 0 "boom" emptyRaw

/-- Claim C5 counterexample: with a malformed host pattern the search
answers with NO sessions at all (and the error text), although the same
buffered session passes every remaining filter — as the second conjunct
shows by running the identical query without the broken filter. The
offending filter is not merely disabled; the whole result set is dropped. -/
theorem C5_counterexample :
    search_sessions trivialOracles failCompile [sampleSession "" 200] badPatQuery =
      ⟨false, 0, [], some "missing ), unterminated subpattern at position 0"⟩ ∧
    search_sessions trivialOracles failCompile [sampleSession "" 200] defaultQuery =
      ⟨true, 1, [sampleSession "" 200], none⟩ :=
  ⟨rfl, rfl⟩

/-- Claim C5 (amended): a malformed regex — whether it is the host pattern
(line 2459) or the URL pattern (line 2460, reached when the host pattern
is absent or compiles) — does not crash the call: the raised `re.error` is
caught by the route handler, which reports the error text to the caller in
a well-formed HTTP-200 response — but the response carries an empty
session list and zero matches: the sessions allowed by the remaining valid
filters are NOT returned. -/
theorem C5_amended (g : PyOracles) (compile : String → Except String (String → Bool))
    (live : List Session) (q : SearchQuery) (e : String)
    (hfail : (q.host_pat ≠ "" ∧ compile q.host_pat = .error e) ∨
      ((q.host_pat = "" ∨ (∃ f, compile q.host_pat = .ok f)) ∧
        q.url_pat ≠ "" ∧ compile q.url_pat = .error e)) :
    search_sessions g compile live q = ⟨false, 0, [], some e⟩ := by
  rcases hfail with ⟨hpat, hc⟩ | ⟨hhost, hupat, huc⟩
  · simp [search_sessions, compileRx, hpat, hc, Except.map]
  · rcases hhost with hhe | ⟨f, hf⟩
    · simp [search_sessions, compileRx, hhe, hupat, huc, Except.map]
    · by_cases hh : q.host_pat = ""
      · simp [search_sessions, compileRx, hh, hupat, huc, Except.map]
      · simp [search_sessions, compileRx, hh, hf, hupat, huc, Except.map]

/-- Witness for C5 (amended) at a malformed URL pattern `"("` with an
empty host pattern (the counterexample already exercises the malformed
host-pattern branch). -/
theorem C5_amended_witness :
    search_sessions trivialOracles failCompile [sampleSession "" 200] badUrlQuery =
      ⟨false, 0, [], some "missing ), unterminated subpattern at position 0"⟩ :=
  C5_amended trivialOracles failCompile [sampleSession "" 200] badUrlQuery
    "missing ), unterminated subpattern at position 0"
    (Or.inr ⟨Or.inl rfl, by decide, rfl⟩)

/-- Claim C1: after any sequence of ingests the live buffer holds exactly
`min(total, 5000)` records — the `min(total, 5000)` most recently ingested
ones, in ingestion order (i.e. all but the first `total - 5000`, so the
oldest is evicted first); in particular its size never exceeds 5000. Every
quiescent point of a longer run is the state after some prefix `xs`. -/
theorem C1_bounded_fifo (xs : List Session) :
    ((xs.foldl receive_session initialState).live_sessions).length
      = min xs.length 5000 ∧
    (xs.foldl receive_session initialState).live_sessions
      = xs.drop (xs.length - 5000) := by
  induction xs using List.reverseRecOn with
  | nil => exact ⟨rfl, rfl⟩
  | append_singleton xs x ih =>
    rw [List.foldl_append]
    obtain ⟨ihlen, ihval⟩ := ih
    simp only [List.foldl_cons, List.foldl_nil, receive_session, dequeAppend,
      List.length_append, List.length_singleton]
    by_cases hlt : xs.length < 5000
    · have h1 : xs.length - 5000 = 0 := by omega
      have h2 : xs.length + 1 - 5000 = 0 := by omega
      rw [if_pos (by rw [ihlen]; omega)]
      constructor
      · simp [List.length_append, ihlen]
        omega
      · rw [ihval, h1, h2, List.drop_zero, List.drop_zero]
    · rw [if_neg (by rw [ihlen]; omega)]
      constructor
      · simp [List.length_append, List.length_drop, ihlen]
        omega
      · have h4 : xs.length - 5000 + 1 = xs.length + 1 - 5000 := by omega
        rw [ihval, List.drop_drop, List.drop_append_of_le_length (by omega), h4]

/-- Claim C6 counterexample: ingest one flagged record, then clear the
live buffer without requesting a flagged clear (as `clear_sessions`
permits). At the resulting quiescent point the record sits in the flagged
buffer but not in the live buffer, refuting the claimed invariant — which
the claim asserted to survive precisely such clears. -/
theorem C6_counterexample :
    sampleSession "Critical: test" 200 ∈ (runOps c6ops).suspicious_sessions ∧
    sampleSession "Critical: test" 200 ∉ (runOps c6ops).live_sessions := by
  have h : runOps c6ops = ⟨[], [sampleSession "Critical: test" 200]⟩ := rfl
  rw [h]
  exact ⟨List.mem_singleton_self _, List.not_mem_nil _⟩

/-- Subset preservation along a run whose clears all clear both buffers
and whose ingests cannot overflow the live buffer. -/
theorem flagged_subset_aux (ops : List BridgeOp) : ∀ (st : BridgeState),
    (∀ b, BridgeOp.clear b ∈ ops → b = true) →
    st.live_sessions.length + ingestCount ops ≤ 5000 →
    (∀ s ∈ st.suspicious_sessions, s ∈ st.live_sessions) →
    ∀ s ∈ (ops.foldl applyOp st).suspicious_sessions,
      s ∈ (ops.foldl applyOp st).live_sessions := by
  induction ops with
  | nil => intro st _ _ hsub; exact hsub
  | cons op rest ih =>
    intro st hclear hcount hsub
    cases op with
    | ingest x =>
      rw [List.foldl_cons]
      have hlt : st.live_sessions.length < 5000 := by
        simp only [ingestCount] at hcount; omega
      apply ih
      · intro b hb; exact hclear b (List.mem_cons_of_mem _ hb)
      · simp only [applyOp, receive_session, dequeAppend, if_pos hlt,
          List.length_append, List.length_singleton]
        simp only [ingestCount] at hcount
        omega
      · intro s hs
        simp only [applyOp, receive_session, dequeAppend, if_pos hlt] at *
        by_cases hsusp : is_immediately_suspicious x
        · rw [if_pos hsusp] at hs
          by_cases hfull : st.suspicious_sessions.length < 1000
          · rw [if_pos hfull] at hs
            rcases List.mem_append.mp hs with h1 | h1
            · exact List.mem_append_left _ (hsub s h1)
            · exact List.mem_append_right _ h1
          · rw [if_neg hfull] at hs
            rcases List.mem_append.mp hs with h1 | h1
            · exact List.mem_append_left _ (hsub s (List.drop_subset _ _ h1))
            · exact List.mem_append_right _ h1
        · rw [if_neg hsusp] at hs
          exact List.mem_append_left _ (hsub s hs)
    | clear b =>
      rw [List.foldl_cons]
      have hb : b = true := hclear b (List.mem_cons_self _ _)
      subst hb
      apply ih
      · intro b hb; exact hclear b (List.mem_cons_of_mem _ hb)
      · simp only [applyOp, clear_sessions, List.length_nil]
        simp only [ingestCount] at hcount
        omega
      · intro s hs
        simp only [applyOp, clear_sessions, if_pos] at hs
        exact absurd hs (List.not_mem_nil s)

/-- Claim C6 (amended): the flagged-buffer-subset invariant does hold at
every quiescent point of a run in which (1) every clear of the live buffer
also requests the flagged clear and (2) no more than 5000 records are
ingested (so the live buffer never evicts). The counterexample shows the
invariant fails as soon as either proviso is dropped, so the original
claim's "including after FIFO evictions … and after clears" is exactly
what has to go. -/
theorem C6_amended (ops : List BridgeOp)
    (hclear : ∀ b, BridgeOp.clear b ∈ ops → b = true)
    (hcount : ingestCount ops ≤ 5000) :
    ∀ s ∈ (runOps ops).suspicious_sessions, s ∈ (runOps ops).live_sessions :=
  flagged_subset_aux ops initialState hclear
    (by simpa [initialState] using hcount) (by simp [initialState])

/-- Witness for C6 (amended): a run with a both-buffer clear in the
middle; the flagged record ingested after the clear is in the live buffer. -/
theorem C6_amended_witness :
    sampleSession "" 500 ∈ (runOps c6wOps).live_sessions := by
  apply C6_amended c6wOps
  · intro b hb
    cases b with
    | true => rfl
    | false => simp [c6wOps] at hb
  · simp [c6wOps, ingestCount]
  · have h : runOps c6wOps =
        ⟨[sampleSession "" 500], [sampleSession "" 500]⟩ := rfl
    rw [h]
    exact List.mem_singleton_self _

/-- A collected-snippet step keeps all snippets within the bound: new
entries pass the `< 500` filter, carry the current pattern name, and sit
at `middle_start + match.start`. -/
theorem processMatch_bounded (middle : List Char) (mstart : Nat) (pname : String)
    (m : Nat × Nat) (st : SnipState) (pb : Nat)
    (hname : pname.length ≤ 26) (hm : mstart + m.1 ≤ pb)
    (h : SnipBounded pb st.1) :
    SnipBounded pb (processMatch middle mstart pname m st).1 := by
  simp only [processMatch]
  split_ifs <;> try exact h
  all_goals
    intro e he
    rcases List.mem_append.mp he with he | he
    · exact h e he
    · rw [List.mem_singleton] at he
      subst he
      dsimp only
      exact ⟨by omega, hname, hm⟩

/-- The inner match loop preserves the snippet bound. -/
theorem processMatches_bounded (middle : List Char) (mstart : Nat) (budget : Int)
    (pname : String) (pb : Nat) (hname : pname.length ≤ 26) :
    ∀ (ms : List (Nat × Nat)), (∀ m ∈ ms, mstart + m.1 ≤ pb) →
    ∀ (st : SnipState), SnipBounded pb st.1 →
    SnipBounded pb (processMatches middle mstart budget pname ms st).1 := by
  intro ms
  induction ms with
  | nil => intro _ st h; exact h
  | cons m rest ih =>
    intro hms st h
    simp only [processMatches]
    split_ifs with hb
    · exact h
    · exact ih (fun x hx => hms x (List.mem_cons_of_mem _ hx)) _
        (processMatch_bounded middle mstart pname m st pb hname
          (hms m (List.mem_cons_self _ _)) h)

/-- The outer pattern loop preserves the snippet bound. -/
theorem processPatterns_bounded (middle : List Char) (mstart : Nat) (budget : Int)
    (matchesFor : Nat → List (Nat × Nat)) (pb : Nat) :
    ∀ (pl : List (Nat × String)),
    (∀ p ∈ pl, (p.2).length ≤ 26) →
    (∀ p ∈ pl, ∀ m ∈ matchesFor p.1, mstart + m.1 ≤ pb) →
    ∀ (st : SnipState), SnipBounded pb st.1 →
    SnipBounded pb (processPatterns middle mstart budget matchesFor pl st).1 := by
  intro pl
  induction pl with
  | nil => intro _ _ st h; exact h
  | cons p rest ih =>
    intro hn hs st h
    obtain ⟨idx, pname⟩ := p
    simp only [processPatterns]
    split_ifs with hb
    · exact h
    · exact ih (fun x hx => hn x (List.mem_cons_of_mem _ hx))
        (fun x hx => hs x (List.mem_cons_of_mem _ hx)) _
        (processMatches_bounded middle mstart budget pname pb
          (hn ⟨idx, pname⟩ (List.mem_cons_self _ _)) (matchesFor idx)
          (fun mm hmm => hs ⟨idx, pname⟩ (List.mem_cons_self _ _) mm hmm) st h)

/-- One formatted snippet block is at most 564 characters: fixed glue (18)
plus a two-digit index, a catalogue name (≤ 26), a position below `10^19`
(≤ 19 digits) and the bounded code (≤ 499). -/
theorem formatSnippetEntry_length_le (i : Nat) (s : PatternSnippet) (pb : Nat)
    (hi : i < 100) (hc : s.code.length ≤ 499) (hp : s.pattern.length ≤ 26)
    (hpos : s.position ≤ pb) (hpb : pb < 10 ^ 19) :
    (formatSnippetEntry i s).length ≤ 564 := by
  have h1 : (Nat.repr i).length ≤ 2 := Nat.repr_length i 2 (by norm_num) (by omega)
  have h2 : (Nat.repr s.position).length ≤ 19 :=
    Nat.repr_length s.position 19 (by norm_num) (by omega)
  have h1d : (Nat.repr i).data.length ≤ 2 := h1
  have h2d : (Nat.repr s.position).data.length ≤ 19 := h2
  have hpd : s.pattern.data.length ≤ 26 := hp
  simp only [formatSnippetEntry, List.length_append, List.length_cons,
    List.length_nil]
  omega

/-- `pyJoin` one-step unfolding. -/
theorem pyJoin_cons (sep a : List Char) (rest : List (List Char)) :
    pyJoin sep (a :: rest) = if rest = [] then a else a ++ sep ++ pyJoin sep rest := by
  cases rest with
  | nil => simp [pyJoin]
  | cons b t => simp [pyJoin]

/-- Joining `n` blocks of size at most `c` costs at most `n * (c + sep)`. -/
theorem pyJoin_length_le (sep : List Char) (c : Nat) :
    ∀ (ls : List (List Char)), (∀ l ∈ ls, l.length ≤ c) →
    (pyJoin sep ls).length ≤ ls.length * (c + sep.length) := by
  intro ls
  induction ls with
  | nil => intro _; simp [pyJoin]
  | cons a rest ih =>
    intro h
    rw [pyJoin_cons]
    have ha := h a (List.mem_cons_self _ _)
    split_ifs with hr
    · subst hr
      simp only [List.length_cons, List.length_nil]
      nlinarith
    · have hrest := ih (fun l hl => h l (List.mem_cons_of_mem _ hl))
      simp only [List.length_append, List.length_cons]
      have hd : (rest.length + 1) * (c + sep.length)
          = rest.length * (c + sep.length) + (c + sep.length) := by ring
      omega

/-- Membership in `enum` bounds the index and projects the element. -/
theorem mem_enum_bounds {α : Type} {p : Nat × α} {l : List α} (h : p ∈ l.enum) :
    p.1 < l.length ∧ p.2 ∈ l := by
  rw [List.mem_enum_iff_getElem?] at h
  exact ⟨(List.getElem?_eq_some.mp h).1, List.getElem?_mem h⟩

/-- The formatted pattern text stays below 11320 characters: at most 20
blocks of at most 564 characters joined by 2-character separators. -/
theorem formatSnippets_length_le (snips : List PatternSnippet) (pb : Nat)
    (h : SnipBounded pb snips) (hpb : pb < 10 ^ 19) :
    (formatSnippets snips).length ≤ 11320 := by
  have hbound : ∀ l ∈ (snips.take 20).enum.map
      (fun p => formatSnippetEntry (p.1 + 1) p.2), l.length ≤ 564 := by
    intro l hl
    simp only [List.mem_map] at hl
    obtain ⟨⟨i, s⟩, hmem, rfl⟩ := hl
    obtain ⟨hi, hs⟩ := mem_enum_bounds hmem
    have hlen : (snips.take 20).length ≤ 20 := by
      simp [List.length_take]
    have hsmem : s ∈ snips := List.take_subset _ _ hs
    obtain ⟨hc, hp, hpos⟩ := h s hsmem
    exact formatSnippetEntry_length_le (i + 1) s pb (by omega) hc hp hpos hpb
  have hcount : ((snips.take 20).enum.map
      (fun p => formatSnippetEntry (p.1 + 1) p.2)).length ≤ 20 := by
    simp [List.length_take]
  have hjoin := pyJoin_length_le "\n\n".data 564 _ hbound
  have hsep : ("\n\n".data).length = 2 := rfl
  rw [formatSnippets]
  calc (pyJoin "\n\n".data ((snips.take 20).enum.map
        (fun p => formatSnippetEntry (p.1 + 1) p.2))).length
      ≤ ((snips.take 20).enum.map
        (fun p => formatSnippetEntry (p.1 + 1) p.2)).length * (564 + ("\n\n".data).length) :=
        hjoin
    _ ≤ 20 * 566 := by rw [hsep]; exact Nat.mul_le_mul_right _ hcount
    _ = 11320 := by norm_num

/-- Claim C2: extraction with the implemented constants (budget 24000,
head 8000, tail 4000, remainder for snippets). A body of size ≤ 24000 is
returned whole as `head` with empty tail and no snippets; a larger body
yields exactly 8000 head and 4000 tail characters and a snippet text small
enough that the three parts never exceed 24000 characters. `hspan` states
the one fact used about the regex engine (match starts lie in the searched
text) and `hlen` the CPython string-length bound (`len ≤ 2^63`). -/
theorem C2_extraction_budget (body : List Char) (matchesFor : Nat → List (Nat × Nat))
    (hspan : ∀ i m, m ∈ matchesFor i → m.1 ≤ body.length)
    (hlen : body.length ≤ 2 ^ 63) :
    (body.length ≤ 24000 →
      (extract_intelligent_content body 24000 matchesFor).head = body ∧
      (extract_intelligent_content body 24000 matchesFor).tail = [] ∧
      (extract_intelligent_content body 24000 matchesFor).suspicious_patterns = []) ∧
    (24000 < body.length →
      (extract_intelligent_content body 24000 matchesFor).head.length = 8000 ∧
      (extract_intelligent_content body 24000 matchesFor).tail.length = 4000 ∧
      (extract_intelligent_content body 24000 matchesFor).head.length
        + (extract_intelligent_content body 24000 matchesFor).tail.length
        + (extract_intelligent_content body 24000 matchesFor).suspicious_patterns.length
        ≤ 24000) := by
  have h63 : (2 : Nat) ^ 63 = 9223372036854775808 := by norm_num
  constructor
  · intro hsmall
    by_cases hnil : body = []
    · subst hnil
      exact ⟨rfl, rfl, rfl⟩
    · simp [extract_intelligent_content, hnil, hsmall]
  · intro hbig
    have hnil : body ≠ [] := by
      intro hcontra
      rw [hcontra] at hbig
      simp at hbig
    simp only [extract_intelligent_content]
    rw [if_neg hnil, if_neg (by omega : ¬ body.length ≤ 24000)]
    have hA : body.length > min 8000 body.length
        + min 4000 (body.length - min 8000 body.length) := by omega
    rw [if_pos hA, if_pos hA]
    have hmidlen : ((body.take (body.length
        - min 4000 (body.length - min 8000 body.length))).drop
          (min 8000 body.length)).length = body.length - 12000 := by
      simp only [List.length_drop, List.length_take]
      omega
    have hmid : (body.take (body.length
        - min 4000 (body.length - min 8000 body.length))).drop
          (min 8000 body.length) ≠ [] := by
      intro hcontra
      rw [← List.length_eq_zero] at hcontra
      omega
    have hpb : (((24000 : Nat) : Int) - (min 8000 body.length : Nat)
        - (min 4000 (body.length - min 8000 body.length) : Nat)) > 0 := by
      have : min 8000 body.length = 8000 := by omega
      have : min 4000 (body.length - min 8000 body.length) = 4000 := by omega
      omega
    rw [if_pos ⟨hmid, hpb⟩]
    have hhead : (body.take (min 8000 body.length)).length = 8000 := by
      simp only [List.length_take]
      omega
    have htail : (body.drop (body.length
        - min 4000 (body.length - min 8000 body.length))).length = 4000 := by
      simp only [List.length_drop]
      omega
    refine ⟨hhead, htail, ?_⟩
    have hbound : SnipBounded (8000 + body.length)
        ((processPatterns
          ((body.take (body.length - min 4000 (body.length - min 8000 body.length))).drop
            (min 8000 body.length))
          (min 8000 body.length)
          (((24000 : Nat) : Int) - (min 8000 body.length : Nat)
            - (min 4000 (body.length - min 8000 body.length) : Nat))
          matchesFor security_pattern_names.enum ([], 0, [])).1) := by
      apply processPatterns_bounded
      · decide
      · intro p _ m hm
        have := hspan p.1 m hm
        omega
      · intro e he
        exact absurd he (List.not_mem_nil e)
    have hfmt := formatSnippets_length_le _ (8000 + body.length) hbound (by omega)
    dsimp only
    rw [hhead, htail]
    omega

/-- Witness for C2 at a 24001-character body with an engine reporting no
matches. -/
theorem C2_extraction_budget_witness :
    24000 < (List.replicate 24001 'a').length ∧
    ((extract_intelligent_content (List.replicate 24001 'a') 24000
        (fun _ => [])).head.length = 8000 ∧
     (extract_intelligent_content (List.replicate 24001 'a') 24000
        (fun _ => [])).tail.length = 4000 ∧
     (extract_intelligent_content (List.replicate 24001 'a') 24000
        (fun _ => [])).head.length
       + (extract_intelligent_content (List.replicate 24001 'a') 24000
          (fun _ => [])).tail.length
       + (extract_intelligent_content (List.replicate 24001 'a') 24000
          (fun _ => [])).suspicious_patterns.length ≤ 24000) :=
  ⟨by norm_num [List.length_replicate],
   (C2_extraction_budget (List.replicate 24001 'a') (fun _ => [])
      (fun i m hm => absurd hm (List.not_mem_nil m))
      (by norm_num [List.length_replicate])).2
    (by norm_num [List.length_replicate])⟩
